import Mathlib

/-!
# Verification of the Estimate Calculation Engine

Shallow embedding of the estimate calculator from
`src/components/ProjectManagement.tsx` (the `EstimateCalculator` component):
the configuration constants (`BUSINESS_CONFIG`, `MATERIAL_COSTS`,
`APPLICATION_RATES`), the `EstimateData` input record, and the three
computation callbacks `calculateMaterials`, `calculateLaborAndEquipment`
and `generateEstimate`.

JavaScript numbers are modelled as rationals (`ℚ`); `Math.ceil` is the
mathematical ceiling `⌈·⌉ : ℚ → ℤ` (they agree on every rational, and all
decimal literals in the source are exact in `ℚ`).  `Math.max` is `max`.
The `timestamp` field of the result (`new Date().toISOString()`, wall-clock
I/O) is outside the pure computation and is not modelled; the React state
write `setCalculatedEstimate(estimate)` is modelled by returning the
estimate value.
-/

/-- The `BUSINESS_CONFIG` (Virginia business configuration).  The `address` and
`supplier` strings are display-only data and are omitted. -/
structure BusinessConfig where
  fullTime : ℚ
  partTime : ℚ
  hourlyWage : ℚ
  blendedLaborRate : ℚ

def BUSINESS_CONFIG : BusinessConfig :=
  { fullTime := 2, partTime := 1, hourlyWage := 12, blendedLaborRate := 45 }

/-- The `MATERIAL_COSTS` (material unit prices, Virginia 2025). -/
structure MaterialCostsTable where
  sealMasterPMM : ℚ   -- per gallon
  sand50lb : ℚ        -- per bag
  prepSeal5gal : ℚ    -- per bucket
  fastDry5gal : ℚ     -- per bucket
  crackMaster30lb : ℚ -- per box

def MATERIAL_COSTS : MaterialCostsTable :=
  { sealMasterPMM := 3.79, sand50lb := 10.00, prepSeal5gal := 50.00,
    fastDry5gal := 50.00, crackMaster30lb := 44.95 }

/-- Nested `sealcoat` record inside `APPLICATION_RATES`. -/
structure SealcoatRates where
  firstCoat : ℚ       -- gal per sq ft
  additionalCoats : ℚ -- gal per sq ft

/-- The `APPLICATION_RATES` (application rates and coverage).  The
`crackFilling`, `lineStriping` and patching min/max price ranges in the
source object are never read by the computation callbacks and are kept
here only for completeness. -/
structure ApplicationRates where
  sealcoat : SealcoatRates
  sandMixRatio : ℚ   -- lbs per 100 gallons
  waterRatio : ℚ     -- fraction of concentrate volume
  crackFillingMin : ℚ
  crackFillingMax : ℚ
  lineStripingMin : ℚ
  lineStripingMax : ℚ
  patchingHotMixMin : ℚ
  patchingHotMixMax : ℚ
  patchingColdMixMin : ℚ
  patchingColdMixMax : ℚ

def APPLICATION_RATES : ApplicationRates :=
  { sealcoat := { firstCoat := 0.0144, additionalCoats := 0.0111 },
    sandMixRatio := 300, waterRatio := 0.20,
    crackFillingMin := 0.50, crackFillingMax := 3.00,
    lineStripingMin := 0.75, lineStripingMax := 1.00,
    patchingHotMixMin := 2.00, patchingHotMixMax := 5.00,
    patchingColdMixMin := 2.00, patchingColdMixMax := 4.00 }

/-- The `EstimateData` interface: the job description assembled by the form. -/
structure EstimateData where
  projectType : String
  squareFootage : ℚ
  linearFootage : ℚ
  numberOfCoats : ℚ
  crackSeverity : String
  oilSpotArea : ℚ
  parkingStalls : ℚ
  clientName : String
  jobSiteAddress : String
  travelDistance : ℚ
  profitMargin : ℚ
  additionalNotes : String
deriving DecidableEq

/-- The `materials` object mutated inside `calculateMaterials`: quantities of
each material plus the summed cost. -/
structure Materials where
  sealMasterPMM : ℚ
  sand : ℚ
  water : ℚ
  prepSeal : ℚ
  fastDry : ℚ
  crackMaster : ℚ
  totalMaterialCost : ℚ
deriving DecidableEq

/-- The `costs` object built at the end of `calculateMaterials`: one priced
line per material (water has no line). -/
structure Costs where
  sealMasterPMM : ℚ
  sand : ℚ
  prepSeal : ℚ
  fastDry : ℚ
  crackMaster : ℚ
deriving DecidableEq

/-- The severity ternary on line 780 of the source:
`crackSeverity === 'severe' ? 1.5 : crackSeverity === 'moderate' ? 1.2 : 1.0`. -/
def crackMultiplier (crackSeverity : String) : ℚ :=
  if crackSeverity = "severe" then 1.5
  else if crackSeverity = "moderate" then 1.2
  else 1.0

/-- The per-line `costs` object of `calculateMaterials` (source lines
785-791), computed from the quantities record: sand is priced by 50 lb bag
and fast-dry by 5-gallon bucket (rounded up at cost time); water carries no
cost line. -/
def lineCosts (m : Materials) : Costs :=
  { sealMasterPMM := m.sealMasterPMM * MATERIAL_COSTS.sealMasterPMM,
    sand := (⌈m.sand / 50⌉ : ℚ) * MATERIAL_COSTS.sand50lb,
    prepSeal := m.prepSeal * MATERIAL_COSTS.prepSeal5gal,
    fastDry := (⌈m.fastDry / 5⌉ : ℚ) * MATERIAL_COSTS.fastDry5gal,
    crackMaster := m.crackMaster * MATERIAL_COSTS.crackMaster30lb }

/-- The `calculateMaterials` (source lines 740-796).  The source initialises all
quantity fields to `0`, then conditionally overwrites them:
sealcoating quantities when `squareFootage > 0`, the oil-spot primer when
`oilSpotArea > 0` (`Math.ceil(oilSpotArea / 175)`), and the crack-filler
boxes when `linearFootage > 0` (`Math.ceil(linearFootage * multiplier / 100)`).
It finally prices the lines and stores their sum in `totalMaterialCost`.
Returns the `{ materials, costs }` pair. -/
def calculateMaterials (e : EstimateData) : Materials × Costs :=
  let m0 : Materials :=
    { sealMasterPMM := 0, sand := 0, water := 0, prepSeal := 0,
      fastDry := 0, crackMaster := 0, totalMaterialCost := 0 }
  let m1 :=
    if e.squareFootage > 0 then
      let firstCoatGallons := e.squareFootage * APPLICATION_RATES.sealcoat.firstCoat
      let totalPMM :=
        if e.numberOfCoats > 1 then
          firstCoatGallons +
            e.squareFootage * APPLICATION_RATES.sealcoat.additionalCoats *
              (e.numberOfCoats - 1)
        else firstCoatGallons
      { m0 with
        sealMasterPMM := totalPMM,
        sand := (totalPMM / 100) * APPLICATION_RATES.sandMixRatio,
        water := totalPMM * APPLICATION_RATES.waterRatio,
        fastDry := (totalPMM / 125) * 2 }
    else m0
  let m2 :=
    if e.oilSpotArea > 0 then
      { m1 with prepSeal := (⌈e.oilSpotArea / 175⌉ : ℚ) }
    else m1
  let m3 :=
    if e.linearFootage > 0 then
      { m2 with
        crackMaster :=
          (⌈(e.linearFootage * crackMultiplier e.crackSeverity) / 100⌉ : ℚ) }
    else m2
  let costs := lineCosts m3
  let total := costs.sealMasterPMM + costs.sand + costs.prepSeal +
    costs.fastDry + costs.crackMaster
  ({ m3 with totalMaterialCost := total }, costs)

/-- The labor/equipment breakdown returned by `calculateLaborAndEquipment`. -/
structure Labor where
  laborHours : ℚ
  laborCost : ℚ
  equipmentCost : ℚ
  fuelCost : ℚ
  totalLabor : ℚ
deriving DecidableEq

/-- The `calculateLaborAndEquipment` (source lines 798-834): labor hours from
area (2 h per 1000 sq ft) and crack length (1 h per 100 lf), floored at a
4-hour minimum; labor cost at the blended rate for a 3-person crew;
equipment at $50/h for the same hours; fuel for the round trip at 15 MPG
and $4.50/gallon. -/
def calculateLaborAndEquipment (e : EstimateData) : Labor :=
  let h0 : ℚ := 0
  let h1 := if e.squareFootage > 0 then h0 + (e.squareFootage / 1000) * 2 else h0
  let h2 := if e.linearFootage > 0 then h1 + e.linearFootage / 100 else h1
  let laborHours := max h2 4
  let laborCost := laborHours * BUSINESS_CONFIG.blendedLaborRate * 3
  let equipmentHours := laborHours
  let equipmentCost := equipmentHours * 50
  let roundTripMiles := e.travelDistance * 2
  let fuelCost := (roundTripMiles / 15) * 4.50
  { laborHours := laborHours, laborCost := laborCost,
    equipmentCost := equipmentCost, fuelCost := fuelCost,
    totalLabor := laborCost + equipmentCost + fuelCost }

/-- The estimate object assembled by `generateEstimate` (timestamp omitted,
see the file header). -/
structure Estimate where
  materials : Materials
  costs : Costs
  labor : Labor
  subtotal : ℚ
  overhead : ℚ
  profit : ℚ
  total : ℚ
deriving DecidableEq

/-- The `generateEstimate` (source lines 836-857): subtotal of materials and
labor, 15% overhead, profit at the caller's margin percentage, grand total. -/
def generateEstimate (e : EstimateData) : Estimate :=
  let mc := calculateMaterials e
  let labor := calculateLaborAndEquipment e
  let subtotal := mc.1.totalMaterialCost + labor.totalLabor
  let overhead := subtotal * 0.15
  let profit := subtotal * (e.profitMargin / 100)
  let total := subtotal + overhead + profit
  { materials := mc.1, costs := mc.2, labor := labor,
    subtotal := subtotal, overhead := overhead, profit := profit,
    total := total }

/-- The domain of valid job inputs stated in the specification: all numeric
fields non-negative, `numberOfCoats ∈ {1,2,3}`, `crackSeverity` one of the
three enumerated values, `profitMarginPercent ∈ [0,100]`. -/
def ValidJob (e : EstimateData) : Prop :=
  0 ≤ e.squareFootage ∧ 0 ≤ e.linearFootage ∧ 0 ≤ e.oilSpotArea ∧
  0 ≤ e.parkingStalls ∧ 0 ≤ e.travelDistance ∧
  (e.numberOfCoats = 1 ∨ e.numberOfCoats = 2 ∨ e.numberOfCoats = 3) ∧
  (e.crackSeverity = "light" ∨ e.crackSeverity = "moderate" ∨
    e.crackSeverity = "severe") ∧
  0 ≤ e.profitMargin ∧ e.profitMargin ≤ 100

instance (e : EstimateData) : Decidable (ValidJob e) := by
  unfold ValidJob; infer_instance

/-- A blank job input: the `useState` default of the form, with every
quantity zero (the source default has `numberOfCoats := 1`,
`crackSeverity := "light"`, `profitMargin := 20`). -/
def defaultJob : EstimateData :=
  { projectType := "", squareFootage := 0, linearFootage := 0,
    numberOfCoats := 1, crackSeverity := "light", oilSpotArea := 0,
    parkingStalls := 0, clientName := "", jobSiteAddress := "",
    travelDistance := 0, profitMargin := 20, additionalNotes := "" }

/-- Example scenario 1 of the specification: 1000 sq ft, one coat,
everything else zero, 20% margin. -/
def scenario1 : EstimateData := { defaultJob with squareFootage := 1000 }

/-- Example scenario 3 of the specification: 500 linear feet of severe
cracking, everything else zero. -/
def scenario3 : EstimateData :=
  { defaultJob with linearFootage := 500, crackSeverity := "severe" }

lemma one_le_crackMultiplier (s : String) : 1 ≤ crackMultiplier s := by
  unfold crackMultiplier; split_ifs <;> norm_num

lemma qceil_eq (r : ℚ) (z : ℤ) (h1 : (z : ℚ) - 1 < r) (h2 : r ≤ (z : ℚ)) :
    ((⌈r⌉ : ℤ) : ℚ) = (z : ℚ) := by
  have h : ⌈r⌉ = z := Int.ceil_eq_iff.mpr ⟨h1, h2⟩
  rw [h]

lemma cm_sealMasterPMM_eq (e : EstimateData) :
    (calculateMaterials e).1.sealMasterPMM =
      if e.squareFootage > 0 then
        (if e.numberOfCoats > 1 then
          e.squareFootage * 0.0144 +
            e.squareFootage * 0.0111 * (e.numberOfCoats - 1)
        else e.squareFootage * 0.0144)
      else 0 := by
  unfold calculateMaterials
  by_cases h1 : e.squareFootage > 0 <;> by_cases h2 : e.numberOfCoats > 1 <;>
  by_cases h3 : e.oilSpotArea > 0 <;> by_cases h4 : e.linearFootage > 0 <;>
  simp [h1, h2, h3, h4, APPLICATION_RATES]

lemma cm_sand_eq (e : EstimateData) :
    (calculateMaterials e).1.sand =
      ((calculateMaterials e).1.sealMasterPMM / 100) * 300 := by
  unfold calculateMaterials
  by_cases h1 : e.squareFootage > 0 <;> by_cases h2 : e.numberOfCoats > 1 <;>
  by_cases h3 : e.oilSpotArea > 0 <;> by_cases h4 : e.linearFootage > 0 <;>
  simp [h1, h2, h3, h4, APPLICATION_RATES]

lemma cm_water_eq (e : EstimateData) :
    (calculateMaterials e).1.water =
      (calculateMaterials e).1.sealMasterPMM * 0.20 := by
  unfold calculateMaterials
  by_cases h1 : e.squareFootage > 0 <;> by_cases h2 : e.numberOfCoats > 1 <;>
  by_cases h3 : e.oilSpotArea > 0 <;> by_cases h4 : e.linearFootage > 0 <;>
  simp [h1, h2, h3, h4, APPLICATION_RATES]

lemma cm_fastDry_eq (e : EstimateData) :
    (calculateMaterials e).1.fastDry =
      ((calculateMaterials e).1.sealMasterPMM / 125) * 2 := by
  unfold calculateMaterials
  by_cases h1 : e.squareFootage > 0 <;> by_cases h2 : e.numberOfCoats > 1 <;>
  by_cases h3 : e.oilSpotArea > 0 <;> by_cases h4 : e.linearFootage > 0 <;>
  simp [h1, h2, h3, h4, APPLICATION_RATES]

lemma cm_prepSeal_eq (e : EstimateData) :
    (calculateMaterials e).1.prepSeal =
      if e.oilSpotArea > 0 then (⌈e.oilSpotArea / 175⌉ : ℚ) else 0 := by
  unfold calculateMaterials
  by_cases h1 : e.squareFootage > 0 <;> by_cases h2 : e.numberOfCoats > 1 <;>
  by_cases h3 : e.oilSpotArea > 0 <;> by_cases h4 : e.linearFootage > 0 <;>
  simp [h1, h2, h3, h4]

lemma cm_crackMaster_eq (e : EstimateData) :
    (calculateMaterials e).1.crackMaster =
      if e.linearFootage > 0 then
        (⌈(e.linearFootage * crackMultiplier e.crackSeverity) / 100⌉ : ℚ)
      else 0 := by
  unfold calculateMaterials
  by_cases h1 : e.squareFootage > 0 <;> by_cases h2 : e.numberOfCoats > 1 <;>
  by_cases h3 : e.oilSpotArea > 0 <;> by_cases h4 : e.linearFootage > 0 <;>
  simp [h1, h2, h3, h4]

lemma cm_costs_eq (e : EstimateData) :
    (calculateMaterials e).2 = lineCosts (calculateMaterials e).1 := rfl

lemma cm_total_eq (e : EstimateData) :
    (calculateMaterials e).1.totalMaterialCost =
      (calculateMaterials e).2.sealMasterPMM + (calculateMaterials e).2.sand +
      (calculateMaterials e).2.prepSeal + (calculateMaterials e).2.fastDry +
      (calculateMaterials e).2.crackMaster := rfl

lemma labor_laborHours_eq (e : EstimateData) :
    (calculateLaborAndEquipment e).laborHours =
      max ((if e.squareFootage > 0 then (e.squareFootage / 1000) * 2 else 0) +
           (if e.linearFootage > 0 then e.linearFootage / 100 else 0)) 4 := by
  unfold calculateLaborAndEquipment
  by_cases h1 : e.squareFootage > 0 <;> by_cases h2 : e.linearFootage > 0 <;>
  simp [h1, h2]

lemma labor_laborHours_ge (e : EstimateData) :
    4 ≤ (calculateLaborAndEquipment e).laborHours := by
  rw [labor_laborHours_eq]; exact le_max_right _ _

lemma labor_fields (e : EstimateData) :
    (calculateLaborAndEquipment e).laborCost =
      (calculateLaborAndEquipment e).laborHours * 45 * 3 ∧
    (calculateLaborAndEquipment e).equipmentCost =
      (calculateLaborAndEquipment e).laborHours * 50 ∧
    (calculateLaborAndEquipment e).fuelCost =
      (e.travelDistance * 2 / 15) * 4.50 ∧
    (calculateLaborAndEquipment e).totalLabor =
      (calculateLaborAndEquipment e).laborCost +
      (calculateLaborAndEquipment e).equipmentCost +
      (calculateLaborAndEquipment e).fuelCost :=
  ⟨rfl, rfl, rfl, rfl⟩

lemma pmm_nonneg (e : EstimateData) (hsf : 0 ≤ e.squareFootage) :
    0 ≤ (calculateMaterials e).1.sealMasterPMM := by
  rw [cm_sealMasterPMM_eq]
  split_ifs with h1 h2
  · nlinarith
  · nlinarith
  · exact le_refl 0

lemma prepSeal_nonneg (e : EstimateData) :
    0 ≤ (calculateMaterials e).1.prepSeal := by
  rw [cm_prepSeal_eq]
  split_ifs with h
  · exact Int.cast_nonneg.mpr (Int.ceil_nonneg (div_nonneg h.le (by norm_num)))
  · exact le_refl 0

lemma crackMaster_nonneg (e : EstimateData) :
    0 ≤ (calculateMaterials e).1.crackMaster := by
  rw [cm_crackMaster_eq]
  split_ifs with h
  · exact Int.cast_nonneg.mpr (Int.ceil_nonneg (div_nonneg
      (mul_nonneg h.le (le_trans zero_le_one (one_le_crackMultiplier _)))
      (by norm_num)))
  · exact le_refl 0

lemma costs_fields (e : EstimateData) :
    (calculateMaterials e).2.sealMasterPMM =
      (calculateMaterials e).1.sealMasterPMM * 3.79 ∧
    (calculateMaterials e).2.sand =
      (⌈(calculateMaterials e).1.sand / 50⌉ : ℚ) * 10 ∧
    (calculateMaterials e).2.prepSeal =
      (calculateMaterials e).1.prepSeal * 50 ∧
    (calculateMaterials e).2.fastDry =
      (⌈(calculateMaterials e).1.fastDry / 5⌉ : ℚ) * 50 ∧
    (calculateMaterials e).2.crackMaster =
      (calculateMaterials e).1.crackMaster * 44.95 := by
  rw [cm_costs_eq]
  refine ⟨?_, ?_, ?_, ?_, ?_⟩ <;> simp [lineCosts, MATERIAL_COSTS] <;> norm_num

lemma costs_nonneg (e : EstimateData) (hsf : 0 ≤ e.squareFootage) :
    0 ≤ (calculateMaterials e).2.sealMasterPMM ∧
    0 ≤ (calculateMaterials e).2.sand ∧
    0 ≤ (calculateMaterials e).2.prepSeal ∧
    0 ≤ (calculateMaterials e).2.fastDry ∧
    0 ≤ (calculateMaterials e).2.crackMaster := by
  obtain ⟨c1, c2, c3, c4, c5⟩ := costs_fields e
  have hp := pmm_nonneg e hsf
  have hps := prepSeal_nonneg e
  have hcm := crackMaster_nonneg e
  have hsand : 0 ≤ (calculateMaterials e).1.sand := by
    rw [cm_sand_eq]; positivity
  have hfd : 0 ≤ (calculateMaterials e).1.fastDry := by
    rw [cm_fastDry_eq]; positivity
  refine ⟨by rw [c1]; nlinarith,
    by
      rw [c2]
      exact mul_nonneg (Int.cast_nonneg.mpr (Int.ceil_nonneg
        (div_nonneg hsand (by norm_num)))) (by norm_num),
    by rw [c3]; nlinarith,
    by
      rw [c4]
      exact mul_nonneg (Int.cast_nonneg.mpr (Int.ceil_nonneg
        (div_nonneg hfd (by norm_num)))) (by norm_num),
    by rw [c5]; nlinarith⟩

lemma gen_subtotal_eq (e : EstimateData) :
    (generateEstimate e).subtotal =
      (calculateMaterials e).1.totalMaterialCost +
        (calculateLaborAndEquipment e).totalLabor := rfl

lemma gen_overhead_eq (e : EstimateData) :
    (generateEstimate e).overhead = (generateEstimate e).subtotal * 0.15 := rfl

lemma gen_profit_eq (e : EstimateData) :
    (generateEstimate e).profit =
      (generateEstimate e).subtotal * (e.profitMargin / 100) := rfl

lemma gen_total_eq (e : EstimateData) :
    (generateEstimate e).total =
      (generateEstimate e).subtotal + (generateEstimate e).overhead +
        (generateEstimate e).profit := rfl

lemma gen_costs_eq (e : EstimateData) :
    (generateEstimate e).costs = (calculateMaterials e).2 := rfl

lemma gen_labor_eq (e : EstimateData) :
    (generateEstimate e).labor = calculateLaborAndEquipment e := rfl

lemma labor_nonneg (e : EstimateData) (htd : 0 ≤ e.travelDistance) :
    0 ≤ (calculateLaborAndEquipment e).laborCost ∧
    0 ≤ (calculateLaborAndEquipment e).equipmentCost ∧
    0 ≤ (calculateLaborAndEquipment e).fuelCost ∧
    0 ≤ (calculateLaborAndEquipment e).totalLabor := by
  obtain ⟨f1, f2, f3, f4⟩ := labor_fields e
  have hh := labor_laborHours_ge e
  refine ⟨by rw [f1]; nlinarith, by rw [f2]; nlinarith,
    by rw [f3]; nlinarith, by rw [f4, f1, f2, f3]; nlinarith⟩

lemma totalMaterialCost_nonneg (e : EstimateData) (hsf : 0 ≤ e.squareFootage) :
    0 ≤ (calculateMaterials e).1.totalMaterialCost := by
  obtain ⟨n1, n2, n3, n4, n5⟩ := costs_nonneg e hsf
  rw [cm_total_eq]; linarith

lemma subtotal_nonneg (e : EstimateData) (hsf : 0 ≤ e.squareFootage)
    (htd : 0 ≤ e.travelDistance) : 0 ≤ (generateEstimate e).subtotal := by
  rw [gen_subtotal_eq]
  have h1 := totalMaterialCost_nonneg e hsf
  have h2 := (labor_nonneg e htd).2.2.2
  linarith

/-- C1: for a job input whose numeric fields are non-negative and whose
profit margin lies in `[0,100]`, `generateEstimate` builds the totals
exactly as specified: subtotal is materials plus labor, overhead is 15% of
subtotal, profit is subtotal times the margin over 100, and total is their
sum. -/
theorem C1_generateEstimate_totals (e : EstimateData)
    (hsf : 0 ≤ e.squareFootage) (hlf : 0 ≤ e.linearFootage)
    (hnc : 0 ≤ e.numberOfCoats) (hos : 0 ≤ e.oilSpotArea)
    (hpk : 0 ≤ e.parkingStalls) (htd : 0 ≤ e.travelDistance)
    (hpm0 : 0 ≤ e.profitMargin) (hpm1 : e.profitMargin ≤ 100) :
    (generateEstimate e).subtotal =
      (calculateMaterials e).1.totalMaterialCost +
        (calculateLaborAndEquipment e).totalLabor ∧
    (generateEstimate e).overhead = (generateEstimate e).subtotal * 0.15 ∧
    (generateEstimate e).profit =
      (generateEstimate e).subtotal * (e.profitMargin / 100) ∧
    (generateEstimate e).total =
      (generateEstimate e).subtotal + (generateEstimate e).overhead +
        (generateEstimate e).profit :=
  ⟨rfl, rfl, rfl, rfl⟩

/-- C1 witness: the theorem instantiated at the form's default job input. -/
theorem C1_generateEstimate_totals_witness :
    (generateEstimate defaultJob).subtotal =
      (calculateMaterials defaultJob).1.totalMaterialCost +
        (calculateLaborAndEquipment defaultJob).totalLabor ∧
    (generateEstimate defaultJob).overhead =
      (generateEstimate defaultJob).subtotal * 0.15 ∧
    (generateEstimate defaultJob).profit =
      (generateEstimate defaultJob).subtotal * (defaultJob.profitMargin / 100) ∧
    (generateEstimate defaultJob).total =
      (generateEstimate defaultJob).subtotal + (generateEstimate defaultJob).overhead +
        (generateEstimate defaultJob).profit :=
  C1_generateEstimate_totals defaultJob (by norm_num [defaultJob])
    (by norm_num [defaultJob]) (by norm_num [defaultJob]) (by norm_num [defaultJob])
    (by norm_num [defaultJob]) (by norm_num [defaultJob]) (by norm_num [defaultJob])
    (by norm_num [defaultJob])

/-- C2: on every valid job input, each component cost of the returned
estimate (the five material line costs, labor, equipment, fuel, overhead,
profit) is non-negative, the subtotal equals materials plus labor exactly,
and `total ≥ subtotal ≥ materials.total + labor.total`. -/
theorem C2_estimate_components_nonneg (e : EstimateData) (hv : ValidJob e) :
    0 ≤ (generateEstimate e).costs.sealMasterPMM ∧
    0 ≤ (generateEstimate e).costs.sand ∧
    0 ≤ (generateEstimate e).costs.prepSeal ∧
    0 ≤ (generateEstimate e).costs.fastDry ∧
    0 ≤ (generateEstimate e).costs.crackMaster ∧
    0 ≤ (generateEstimate e).labor.laborCost ∧
    0 ≤ (generateEstimate e).labor.equipmentCost ∧
    0 ≤ (generateEstimate e).labor.fuelCost ∧
    0 ≤ (generateEstimate e).overhead ∧
    0 ≤ (generateEstimate e).profit ∧
    (generateEstimate e).subtotal =
      (calculateMaterials e).1.totalMaterialCost +
        (calculateLaborAndEquipment e).totalLabor ∧
    (calculateMaterials e).1.totalMaterialCost +
      (calculateLaborAndEquipment e).totalLabor ≤ (generateEstimate e).subtotal ∧
    (generateEstimate e).subtotal ≤ (generateEstimate e).total := by
  obtain ⟨hsf, hlf, hos, hpk, htd, hnc, hcs, hpm0, hpm1⟩ := hv
  obtain ⟨n1, n2, n3, n4, n5⟩ := costs_nonneg e hsf
  obtain ⟨l1, l2, l3, l4⟩ := labor_nonneg e htd
  have hsub := subtotal_nonneg e hsf htd
  have hoh : 0 ≤ (generateEstimate e).overhead := by
    rw [gen_overhead_eq]; nlinarith
  have hpr : 0 ≤ (generateEstimate e).profit := by
    rw [gen_profit_eq]
    exact mul_nonneg hsub (div_nonneg hpm0 (by norm_num))
  refine ⟨?_, ?_, ?_, ?_, ?_, ?_, ?_, ?_, hoh, hpr, rfl, le_of_eq rfl, ?_⟩
  · rw [gen_costs_eq]; exact n1
  · rw [gen_costs_eq]; exact n2
  · rw [gen_costs_eq]; exact n3
  · rw [gen_costs_eq]; exact n4
  · rw [gen_costs_eq]; exact n5
  · rw [gen_labor_eq]; exact l1
  · rw [gen_labor_eq]; exact l2
  · rw [gen_labor_eq]; exact l3
  · rw [gen_total_eq]; linarith

/-- C2 witness: the theorem instantiated at the form's default job input. -/
theorem C2_estimate_components_nonneg_witness :
    0 ≤ (generateEstimate defaultJob).costs.sealMasterPMM ∧
    0 ≤ (generateEstimate defaultJob).costs.sand ∧
    0 ≤ (generateEstimate defaultJob).costs.prepSeal ∧
    0 ≤ (generateEstimate defaultJob).costs.fastDry ∧
    0 ≤ (generateEstimate defaultJob).costs.crackMaster ∧
    0 ≤ (generateEstimate defaultJob).labor.laborCost ∧
    0 ≤ (generateEstimate defaultJob).labor.equipmentCost ∧
    0 ≤ (generateEstimate defaultJob).labor.fuelCost ∧
    0 ≤ (generateEstimate defaultJob).overhead ∧
    0 ≤ (generateEstimate defaultJob).profit ∧
    (generateEstimate defaultJob).subtotal =
      (calculateMaterials defaultJob).1.totalMaterialCost +
        (calculateLaborAndEquipment defaultJob).totalLabor ∧
    (calculateMaterials defaultJob).1.totalMaterialCost +
      (calculateLaborAndEquipment defaultJob).totalLabor ≤
        (generateEstimate defaultJob).subtotal ∧
    (generateEstimate defaultJob).subtotal ≤ (generateEstimate defaultJob).total :=
  C2_estimate_components_nonneg defaultJob (by norm_num [ValidJob, defaultJob])

/-- C3 counterexample: on the invalid input with `squareFootage = -500` the
engine does not reject the call: it computes a complete estimate, and that
estimate is identical to the one for `squareFootage = 0` — the negative
quantity is silently treated as zero by the `> 0` guard. -/
theorem C3_counterexample :
    generateEstimate { defaultJob with squareFootage := -500 } =
      generateEstimate defaultJob ∧
    (generateEstimate { defaultJob with squareFootage := -500 }).total = 999 := by
  norm_num [generateEstimate, calculateMaterials, calculateLaborAndEquipment,
    lineCosts, defaultJob, MATERIAL_COSTS, APPLICATION_RATES, BUSINESS_CONFIG,
    crackMultiplier]

/-- C3 amended: the engine performs no input validation; a non-positive
`squareFootage` produces the same fully computed estimate as zero. -/
theorem C3_amended_no_validation (e : EstimateData) (x : ℚ) (hx : x ≤ 0) :
    generateEstimate { e with squareFootage := x } =
      generateEstimate { e with squareFootage := 0 } := by
  have hx' : ¬((x : ℚ) > 0) := not_lt.mpr hx
  unfold generateEstimate calculateMaterials calculateLaborAndEquipment
  simp [hx']

/-- C3 amended witness: the amended theorem at `squareFootage = -500`. -/
theorem C3_amended_no_validation_witness :
    generateEstimate { defaultJob with squareFootage := -500 } =
      generateEstimate { defaultJob with squareFootage := 0 } :=
  C3_amended_no_validation defaultJob (-500) (by norm_num)

/-- C4: with `oilSpotArea > 0` the primer quantity is the ceiling of raw
gallons (`oilSpotArea / 175`), not divided by the 5-gallon bucket size, and
its cost is that integer times the $50 bucket price; with `oilSpotArea = 0`
both quantity and cost are exactly 0. -/
theorem C4_prepSeal_rounding (e e' : EstimateData) (h : 0 < e.oilSpotArea)
    (h' : e'.oilSpotArea = 0) :
    (calculateMaterials e).1.prepSeal = (⌈e.oilSpotArea / 175⌉ : ℚ) ∧
    (calculateMaterials e).2.prepSeal = (⌈e.oilSpotArea / 175⌉ : ℚ) * 50 ∧
    (calculateMaterials e').1.prepSeal = 0 ∧
    (calculateMaterials e').2.prepSeal = 0 := by
  have c := (costs_fields e).2.2.1
  have c' := (costs_fields e').2.2.1
  have q := cm_prepSeal_eq e
  have q' := cm_prepSeal_eq e'
  rw [if_pos h] at q
  rw [h'] at q'
  norm_num at q'
  exact ⟨q, by rw [c, q], q', by rw [c', q']; ring⟩

/-- C4 witness: 350 sq ft of oil spots need `⌈350/175⌉ = 2` primer units at
$50, and the default (zero-area) job has no primer line. -/
theorem C4_prepSeal_rounding_witness :
    (calculateMaterials { defaultJob with oilSpotArea := 350 }).1.prepSeal =
      (⌈({ defaultJob with oilSpotArea := 350 } : EstimateData).oilSpotArea / 175⌉ : ℚ) ∧
    (calculateMaterials { defaultJob with oilSpotArea := 350 }).2.prepSeal =
      (⌈({ defaultJob with oilSpotArea := 350 } : EstimateData).oilSpotArea / 175⌉ : ℚ) * 50 ∧
    (calculateMaterials defaultJob).1.prepSeal = 0 ∧
    (calculateMaterials defaultJob).2.prepSeal = 0 :=
  C4_prepSeal_rounding { defaultJob with oilSpotArea := 350 } defaultJob
    (by norm_num [defaultJob]) (by norm_num [defaultJob])

/-- C5: labor hours are the maximum of the area and crack-length
contributions and the 4-hour minimum, hence always at least 4; a job with
zero area and zero crack length gets exactly 4 hours. -/
theorem C5_minimum_hours (e e0 : EstimateData) (h0 : e0.squareFootage = 0)
    (h0' : e0.linearFootage = 0) :
    (calculateLaborAndEquipment e).laborHours =
      max ((if e.squareFootage > 0 then (e.squareFootage / 1000) * 2 else 0) +
           (if e.linearFootage > 0 then e.linearFootage / 100 else 0)) 4 ∧
    4 ≤ (calculateLaborAndEquipment e).laborHours ∧
    (calculateLaborAndEquipment e0).laborHours = 4 := by
  refine ⟨labor_laborHours_eq e, labor_laborHours_ge e, ?_⟩
  rw [labor_laborHours_eq e0, h0, h0']
  norm_num

/-- C5 witness: the theorem at scenario 1 (for the general part) and the
all-zero default job (for the exact-4 part). -/
theorem C5_minimum_hours_witness :
    (calculateLaborAndEquipment scenario1).laborHours =
      max ((if scenario1.squareFootage > 0 then (scenario1.squareFootage / 1000) * 2 else 0) +
           (if scenario1.linearFootage > 0 then scenario1.linearFootage / 100 else 0)) 4 ∧
    4 ≤ (calculateLaborAndEquipment scenario1).laborHours ∧
    (calculateLaborAndEquipment defaultJob).laborHours = 4 :=
  C5_minimum_hours scenario1 defaultJob (by norm_num [defaultJob])
    (by norm_num [defaultJob])

/-- C6: with `linearFootage > 0` the crack-filler box count is the ceiling
of severity-adjusted length over 100, with multipliers 1.5 / 1.2 / 1.0;
in particular 500 lf of severe cracking is 750 adjusted feet and 8 boxes. -/
theorem C6_crackFiller_boxes (e : EstimateData) (h : 0 < e.linearFootage) :
    (calculateMaterials e).1.crackMaster =
      (⌈(e.linearFootage * crackMultiplier e.crackSeverity) / 100⌉ : ℚ) ∧
    crackMultiplier "severe" = 1.5 ∧
    crackMultiplier "moderate" = 1.2 ∧
    crackMultiplier "light" = 1.0 ∧
    (500 : ℚ) * crackMultiplier "severe" = 750 ∧
    (calculateMaterials scenario3).1.crackMaster = 8 := by
  refine ⟨?_, by norm_num [crackMultiplier], by simp [crackMultiplier],
    by simp [crackMultiplier], by simp [crackMultiplier]; norm_num, ?_⟩
  · rw [cm_crackMaster_eq, if_pos h]
  · norm_num [calculateMaterials, scenario3, defaultJob, crackMultiplier]
    exact qceil_eq _ 8 (by norm_num) (by norm_num)

/-- C6 witness: the theorem at scenario 3 itself. -/
theorem C6_crackFiller_boxes_witness :
    (calculateMaterials scenario3).1.crackMaster =
      (⌈(scenario3.linearFootage * crackMultiplier scenario3.crackSeverity) / 100⌉ : ℚ) ∧
    crackMultiplier "severe" = 1.5 ∧
    crackMultiplier "moderate" = 1.2 ∧
    crackMultiplier "light" = 1.0 ∧
    (500 : ℚ) * crackMultiplier "severe" = 750 ∧
    (calculateMaterials scenario3).1.crackMaster = 8 :=
  C6_crackFiller_boxes scenario3 (by norm_num [scenario3, defaultJob])

/-- C7 counterexample: on scenario 1 (1000 sq ft, one coat, margin 20) the
total material cost is not `firstCoatGallons × unitPrice + one sand bag`
(= 64.576): the cost also includes a whole $50 fast-dry bucket, because
`fastDry = 0.2304` gal rounds up to one 5-gallon bucket. -/
theorem C7_counterexample :
    (calculateMaterials scenario1).1.totalMaterialCost ≠
      1000 * (0.0144 : ℚ) * 3.79 + 10.00 := by
  norm_num [calculateMaterials, lineCosts, scenario1, defaultJob,
    MATERIAL_COSTS, APPLICATION_RATES, crackMultiplier]
  rw [show (⌈(108:ℚ)/125⌉ : ℤ) = 1 from Int.ceil_eq_iff.mpr ⟨by norm_num, by norm_num⟩,
    show (⌈(144:ℚ)/3125⌉ : ℤ) = 1 from Int.ceil_eq_iff.mpr ⟨by norm_num, by norm_num⟩]
  norm_num

/-- C7 amended: on scenario 1 the sealant is 14.4 gallons, sand 43.2 pounds
priced as one bag, water 2.88 gallons, labor floored at 4 hours, and the
total material cost is the first-coat gallons times the sealant price plus
one sand bag plus one fast-dry bucket ($50). -/
theorem C7_amended_scenario1 :
    (calculateMaterials scenario1).1.sealMasterPMM = 14.4 ∧
    (calculateMaterials scenario1).1.sand = 43.2 ∧
    (calculateMaterials scenario1).2.sand = 10 ∧
    (calculateMaterials scenario1).1.water = 2.88 ∧
    (calculateMaterials scenario1).1.fastDry = 0.2304 ∧
    (calculateMaterials scenario1).2.fastDry = 50 ∧
    (calculateMaterials scenario1).1.totalMaterialCost =
      1000 * (0.0144 : ℚ) * 3.79 + 10.00 + 50.00 ∧
    (calculateLaborAndEquipment scenario1).laborHours = 4 := by
  norm_num [calculateMaterials, calculateLaborAndEquipment, lineCosts,
    scenario1, defaultJob, MATERIAL_COSTS, APPLICATION_RATES, crackMultiplier]
  rw [show (⌈(108:ℚ)/125⌉ : ℤ) = 1 from Int.ceil_eq_iff.mpr ⟨by norm_num, by norm_num⟩,
    show (⌈(144:ℚ)/3125⌉ : ℤ) = 1 from Int.ceil_eq_iff.mpr ⟨by norm_num, by norm_num⟩]
  norm_num

/-- C8: for fixed `linearFootage > 0` the crack-filler box count is
monotone in severity: severe ≥ moderate ≥ light. -/
theorem C8_severity_monotone (e : EstimateData) (h : 0 < e.linearFootage) :
    (calculateMaterials { e with crackSeverity := "moderate" }).1.crackMaster ≤
      (calculateMaterials { e with crackSeverity := "severe" }).1.crackMaster ∧
    (calculateMaterials { e with crackSeverity := "light" }).1.crackMaster ≤
      (calculateMaterials { e with crackSeverity := "moderate" }).1.crackMaster := by
  have hs := cm_crackMaster_eq { e with crackSeverity := "severe" }
  have hm := cm_crackMaster_eq { e with crackSeverity := "moderate" }
  have hl := cm_crackMaster_eq { e with crackSeverity := "light" }
  simp only [if_pos h] at hs hm hl
  rw [hs, hm, hl]
  have e1 : crackMultiplier "severe" = 1.5 := by norm_num [crackMultiplier]
  have e2 : crackMultiplier "moderate" = 1.2 := by simp [crackMultiplier]
  have e3 : crackMultiplier "light" = 1 := by simp [crackMultiplier]; norm_num
  rw [e1, e2, e3]
  constructor <;>
    exact Int.cast_le.mpr (Int.ceil_le_ceil (by nlinarith))

/-- C8 witness: the theorem at scenario 3's 500 linear feet. -/
theorem C8_severity_monotone_witness :
    (calculateMaterials { scenario3 with crackSeverity := "moderate" }).1.crackMaster ≤
      (calculateMaterials { scenario3 with crackSeverity := "severe" }).1.crackMaster ∧
    (calculateMaterials { scenario3 with crackSeverity := "light" }).1.crackMaster ≤
      (calculateMaterials { scenario3 with crackSeverity := "moderate" }).1.crackMaster :=
  C8_severity_monotone scenario3 (by norm_num [scenario3, defaultJob])

/-- C9: any severity string other than "severe" and "moderate" gets
multiplier 1.0 and the whole materials computation behaves exactly as for
"light"; the function is total, so no error is raised. -/
theorem C9_unknown_severity (e : EstimateData) (hlf : 0 < e.linearFootage)
    (h1 : e.crackSeverity ≠ "severe") (h2 : e.crackSeverity ≠ "moderate") :
    crackMultiplier e.crackSeverity = 1 ∧
    calculateMaterials e = calculateMaterials { e with crackSeverity := "light" } := by
  have hm : crackMultiplier e.crackSeverity = 1 := by
    unfold crackMultiplier; rw [if_neg h1, if_neg h2]; norm_num
  have hl : crackMultiplier "light" = 1 := by simp [crackMultiplier]; norm_num
  refine ⟨hm, ?_⟩
  unfold calculateMaterials
  simp only [hm, hl]

/-- C9 witness: the theorem at 500 linear feet with the empty severity
string. -/
theorem C9_unknown_severity_witness :
    crackMultiplier ({ scenario3 with crackSeverity := "" } : EstimateData).crackSeverity = 1 ∧
    calculateMaterials { scenario3 with crackSeverity := "" } =
      calculateMaterials { { scenario3 with crackSeverity := "" } with crackSeverity := "light" } :=
  C9_unknown_severity { scenario3 with crackSeverity := "" }
    (by norm_num [scenario3, defaultJob]) (by decide) (by decide)

/-- C10: the water quantity is stored (20% of the concentrate volume) but
carries no price: the total material cost is exactly the sum of the five
priced lines, and the line costs are invariant under any change of the
water field alone. -/
theorem C10_water_unpriced (e : EstimateData) (w : ℚ) :
    (calculateMaterials e).1.water =
      (calculateMaterials e).1.sealMasterPMM * 0.20 ∧
    (calculateMaterials e).1.totalMaterialCost =
      (calculateMaterials e).2.sealMasterPMM + (calculateMaterials e).2.sand +
      (calculateMaterials e).2.prepSeal + (calculateMaterials e).2.fastDry +
      (calculateMaterials e).2.crackMaster ∧
    lineCosts { (calculateMaterials e).1 with water := w } =
      lineCosts (calculateMaterials e).1 :=
  ⟨cm_water_eq e, rfl, rfl⟩
